import Mathlib

/-
Shallow embedding of the two PlexBridge administrative scripts:

  * epg-diagnosis.py  : read-only report over an SQLite database
  * fix-epg-system.py : destructive reseed of epg_sources / channels / streams

Modelling conventions:
  * SQLite tables are lists of row structures; unknown schema columns that the
    scripts never touch are omitted.  Timestamps (CURRENT_TIMESTAMP, the
    datetime-based 7-day window) are modelled as integers (seconds); nullable
    TEXT columns are `Option String`.
  * Python truthiness of a fetched TEXT column (None and "" are falsy) is
    `truthyStrOpt`; SQLite WHERE clauses use three-valued logic (`SqlBool`).
  * Standard output of the diagnosis tool is a `List String`, one entry per
    `print` call (a leading `\n` inside an f-string stays inside the entry).
    The `repr`-style quoting Python applies when printing a list of table
    names is abstracted to `toString`.
  * `os.path.join(dirname, rel)` is abstracted to `dirname ++ "/" ++ rel`.
-/

namespace PlexBridge

/-- Row of the `epg_sources` table, with the columns the two scripts read or
write (`id, name, url, refresh_interval, enabled, category, secondary_genres,
last_refresh, last_success, last_error, created_at, updated_at`). -/
structure EpgSourceRow where
  id : String
  name : String
  url : String
  refresh_interval : String
  enabled : Int
  category : Option String
  secondary_genres : Option String
  last_refresh : Option String
  last_success : Option String
  last_error : Option String
  created_at : Int
  updated_at : Int
deriving DecidableEq, Repr

/-- Row of the `channels` table (columns used by the scripts). -/
structure ChannelRow where
  id : String
  name : String
  number : Int
  enabled : Int
  epg_id : Option String
  logo : Option String
  created_at : Int
  updated_at : Int
deriving DecidableEq, Repr

/-- Row of the `streams` table (columns used by the scripts). -/
structure StreamRow where
  id : String
  channel_id : String
  name : String
  url : String
  type : String
  enabled : Int
  created_at : Int
  updated_at : Int
deriving DecidableEq, Repr

/-- Row of the `epg_channels` table.  Both scripts only ever count these rows,
so a single identifying column suffices. -/
structure EpgChannelRow where
  id : String
deriving DecidableEq, Repr

/-- Row of the `epg_programs` table.  The diagnosis tool reads only
`channel_id` and `start_time` (the latter modelled as integer seconds). -/
structure EpgProgramRow where
  channel_id : String
  start_time : Int
deriving DecidableEq, Repr

/-- The SQLite database state shared by both scripts.  `catalogTables` models
the table names recorded in `sqlite_master` (the schema is owned by the
external PlexBridge application, so it is part of the pre-existing state). -/
structure DB where
  epg_sources : List EpgSourceRow
  epg_channels : List EpgChannelRow
  epg_programs : List EpgProgramRow
  channels : List ChannelRow
  streams : List StreamRow
  catalogTables : List String
deriving DecidableEq, Repr

/-- A database state with all tables empty. -/
def dbEmpty : DB :=
  { epg_sources := [], epg_channels := [], epg_programs := [],
    channels := [], streams := [], catalogTables := [] }

/-- Python truthiness of an integer column fetched from SQLite (0 is falsy). -/
def truthyInt (n : Int) : Bool :=
  decide (n ≠ 0)

/-- Python truthiness of a nullable TEXT column: `None` and the empty string
are falsy, every other string truthy. -/
def truthyStrOpt : Option String → Bool
  | none => false
  | some s => decide (s ≠ "")

/-- Python `value or default` on a nullable TEXT column. -/
def strOrDefault (v : Option String) (d : String) : String :=
  match v with
  | none => d
  | some s => if s = "" then d else s

/-- SQLite three-valued boolean. -/
inductive SqlBool where
  | tru
  | fls
  | nul
deriving DecidableEq, Repr

/-- SQLite `AND` on three-valued booleans. -/
def sqlAnd : SqlBool → SqlBool → SqlBool
  | SqlBool.fls, _ => SqlBool.fls
  | _, SqlBool.fls => SqlBool.fls
  | SqlBool.tru, SqlBool.tru => SqlBool.tru
  | _, _ => SqlBool.nul

/-- SQLite `x IS NOT NULL` (always two-valued). -/
def sqlIsNotNull (v : Option String) : SqlBool :=
  match v with
  | none => SqlBool.fls
  | some _ => SqlBool.tru

/-- SQLite inequality of a nullable TEXT column against a constant string:
a NULL operand yields NULL. -/
def sqlNeText (v : Option String) (c : String) : SqlBool :=
  match v with
  | none => SqlBool.nul
  | some s => if s = c then SqlBool.fls else SqlBool.tru

/-- A WHERE clause keeps a row exactly when its condition evaluates to true
(NULL and false both drop the row). -/
def sqlWhere (b : SqlBool) : Bool :=
  match b with
  | SqlBool.tru => true
  | _ => false

/-- Relative path of the database file, `os.path.join(dirname(__file__),
data/database/plextv.db)` in both scripts. -/
def dbPath (scriptDir : String) : String :=
  scriptDir ++ "/" ++ "data/database/plextv.db"

/-- Fixed (SQL table name, display name) pairs both scripts iterate over when
printing record counts. -/
def tablesReport : List (String × String) :=
  [("epg_sources", "EPG Sources"),
   ("epg_channels", "EPG Channels"),
   ("epg_programs", "EPG Programs"),
   ("channels", "Channels")]

/-- `SELECT COUNT(*) FROM t` for the four tables named in `tablesReport`. -/
def tableCount (db : DB) (t : String) : Nat :=
  if t = "epg_sources" then db.epg_sources.length
  else if t = "epg_channels" then db.epg_channels.length
  else if t = "epg_programs" then db.epg_programs.length
  else if t = "channels" then db.channels.length
  else 0

/-- Output lines of the per-source block of the diagnosis tool
(epg-diagnosis.py lines 28-35, including the trailing blank `print()`). -/
def sourceReportLines (s : EpgSourceRow) : List String :=
  ["Source ID: " ++ s.id,
   "  Name: " ++ s.name,
   "  URL: " ++ s.url,
   "  Enabled: " ++ (if truthyInt s.enabled then "Yes" else "No"),
   "  Last Refresh: " ++ strOrDefault s.last_refresh "Never",
   "  Last Success: " ++ strOrDefault s.last_success "Never",
   "  Last Error: " ++ strOrDefault s.last_error "None",
   ""]

/-- The RECORD COUNTS lines of the diagnosis tool (one per table). -/
def recordCountLines (db : DB) : List String :=
  tablesReport.map (fun e => e.2 ++ ": " ++ toString (tableCount db e.1))

/-- The count of the query `SELECT COUNT(*) FROM channels WHERE epg_id IS NOT
NULL AND epg_id != <empty string>` (epg-diagnosis.py line 53), with SQLite three-valued
WHERE semantics. -/
def epgMappedCount (db : DB) : Nat :=
  (db.channels.filter
    (fun c => sqlWhere (sqlAnd (sqlIsNotNull c.epg_id) (sqlNeText c.epg_id "")))).length

/-- The count the spec describes: channels whose `epg_id` is non-NULL and not
the empty string.  Written from the spec sentence, to be compared with
`epgMappedCount`. -/
def epgMappedCountSpec (db : DB) : Nat :=
  (db.channels.filter (fun c => decide (c.epg_id ≠ none ∧ c.epg_id ≠ some ""))).length

/-- Seven days in seconds, the window of `datetime(now, -7 days)`. -/
def sevenDays : Int := 7 * 86400

/-- The cutoff `datetime(now, -7 days)` evaluated at database time `now`. -/
def recentCutoff (now : Int) : Int := now - sevenDays

/-- The rows satisfying the WHERE clause `start_time > datetime(now, -7 days)`. -/
def recentFilter (db : DB) (now : Int) : List EpgProgramRow :=
  db.epg_programs.filter (fun p => decide (recentCutoff now < p.start_time))

/-- `GROUP BY channel_id` with `COUNT(*)`: one (channel_id, count) pair per
distinct channel_id occurring in the rows. -/
def groupCounts (progs : List EpgProgramRow) : List (String × Nat) :=
  ((progs.map (fun p => p.channel_id)).dedup).map
    (fun c => (c, (progs.filter (fun p => decide (p.channel_id = c))).length))

/-- The recent-programs query of epg-diagnosis.py lines 58-65: filter to the
trailing 7 days, group by channel_id, order by count descending (SQLite leaves
the tie-break unspecified; the model uses a stable merge sort), limit 10. -/
def recentPrograms (db : DB) (now : Int) : List (String × Nat) :=
  ((groupCounts (recentFilter db now)).mergeSort
    (fun a b => decide (b.2 ≤ a.2))).take 10

/-- Output lines for the recent-programs section (one line per group). -/
def recentProgramLines (db : DB) (now : Int) : List String :=
  (recentPrograms db now).map
    (fun g => "Channel " ++ g.1 ++ ": " ++ toString g.2 ++ " programs")

/-- SQLite `name LIKE epg_%` (the pattern being a quoted SQL string): in a
LIKE pattern `_` matches exactly one character and `%` any
suffix, so a name matches when it has at least four characters and starts with
the three characters `epg`. -/
def likeEpgUnderscore (t : String) : Bool :=
  decide (4 ≤ t.length) && decide (t.take 3 = "epg")

/-- The channels returned by `SELECT ... FROM channels ORDER BY number LIMIT
10` (epg-diagnosis.py line 80). -/
def sampleChannels (db : DB) : List ChannelRow :=
  (db.channels.mergeSort (fun a b => decide (a.number ≤ b.number))).take 10

/-- The status glyph of the sample-channels listing (epg-diagnosis.py line 84):
`"✅" if channel[3] else "❌"`, where column index 3 of the SELECT is
`epg_id`. -/
def channelGlyph (c : ChannelRow) : String :=
  if truthyStrOpt c.epg_id then "✅" else "❌"

/-- Output lines of one sample-channel block (epg-diagnosis.py lines 84-87). -/
def channelReportLines (c : ChannelRow) : List String :=
  [channelGlyph c ++ " Channel " ++ toString c.number ++ ": " ++ c.name,
   "   EPG ID: " ++ strOrDefault c.epg_id "NOT SET",
   "   Enabled: " ++ (if truthyInt c.enabled then "Yes" else "No")]

/-- All output the diagnosis tool prints after opening the connection, in
order, assuming no exception occurs. -/
def diagBody (db : DB) (now : Int) : List String :=
  ["\n=== EPG SOURCES ==="] ++
  (if db.epg_sources.isEmpty then ["No EPG sources configured!"]
   else (db.epg_sources.map sourceReportLines).flatten) ++
  ["\n=== RECORD COUNTS ==="] ++
  recordCountLines db ++
  ["\n=== CHANNELS WITH EPG IDS ===",
   "Channels with EPG IDs: " ++ toString (epgMappedCount db),
   "\n=== RECENT EPG PROGRAMS (Last 7 days) ==="] ++
  (if (recentPrograms db now).isEmpty then ["No recent EPG programs found!"]
   else recentProgramLines db now) ++
  ["\n=== EPG INITIALIZATION CHECK ===",
   "EPG tables found: " ++ toString (db.catalogTables.filter likeEpgUnderscore),
   "\n=== SAMPLE CHANNELS ==="] ++
  ((sampleChannels db).map channelReportLines).flatten ++
  ["\n✅ EPG diagnosis complete"]

/-- Observable outcome of one run of the diagnosis tool. -/
structure DiagResult where
  exitCode : Nat
  dbOpened : Bool
  output : List String
deriving Repr

/-- One run of epg-diagnosis.py.  `dbExists` is the result of the
`os.path.exists` pre-flight check; when it is false the script prints the
not-found message and exits with status 1 before any connection is opened.
The in-connection path is modelled on its exception-free execution (any
exception there is caught once at the outer level and exits with status 1,
which no claim about the diagnosis tool depends on beyond the pre-flight). -/
def diagRun (dbExists : Bool) (db : DB) (now : Int) (scriptDir : String) : DiagResult :=
  if dbExists then
    { exitCode := 0, dbOpened := true,
      output := ["✅ Found database at: " ++ dbPath scriptDir] ++ diagBody db now }
  else
    { exitCode := 1, dbOpened := false,
      output := ["❌ Database not found at: " ++ dbPath scriptDir] }

/-- Points at which an exception can reach the single outer `except` handler
of fix-epg-system.py: the pre-repair state analysis (reads), each of the three
`DELETE` statements, the `conn.commit()`, the post-repair verification reads,
the JSON template file write, and the final `conn.close()`.  Per-row `INSERT`
exceptions never reach the outer handler: they are caught inside the loops
(lines 101-117, 169-184, 212-227). -/
inductive FailPoint where
  | analysis
  | delSources
  | delChannels
  | delStreams
  | commit
  | verification
  | fileWrite
  | close
deriving DecidableEq, Repr

/-- The three hard-coded EPG source records inserted by fix-epg-system.py
lines 66-94, with `created_at` and `updated_at` set to CURRENT_TIMESTAMP
(`now`) by the INSERT, and the `last_*` columns left NULL. -/
def epgSourcesSeed (now : Int) : List EpgSourceRow :=
  [{ id := "tvnz-epg-source",
     name := "TVNZ EPG Source",
     url := "https://xmltv.s3.amazonaws.com/epg/tvnz/epg.xml.gz",
     refresh_interval := "4h",
     enabled := 1,
     category := some "News",
     secondary_genres := some "[\"News bulletin\",\"Current affairs\",\"Weather\"]",
     last_refresh := none, last_success := none, last_error := none,
     created_at := now, updated_at := now },
   { id := "skytv-epg-source",
     name := "Sky TV EPG Source",
     url := "https://xmltv.s3.amazonaws.com/epg/sky/epg.xml.gz",
     refresh_interval := "6h",
     enabled := 1,
     category := some "Sports",
     secondary_genres := some "[\"Sports event\",\"Sports talk\",\"Football\"]",
     last_refresh := none, last_success := none, last_error := none,
     created_at := now, updated_at := now },
   { id := "generic-epg-source",
     name := "Generic XMLTV Source",
     url := "https://iptv-org.github.io/epg/guides/nz/freeviewnz.com.xml",
     refresh_interval := "4h",
     enabled := 1,
     category := none,
     secondary_genres := none,
     last_refresh := none, last_success := none, last_error := none,
     created_at := now, updated_at := now }]

/-- The five hard-coded sample channels of fix-epg-system.py lines 121-162.
Each `id` is a freshly generated `uuid.uuid4()` string, supplied here by
`chIds`. -/
def sampleChannelsSeed (chIds : Fin 5 → String) (now : Int) : List ChannelRow :=
  [{ id := chIds 0, name := "TVNZ 1", number := 1, enabled := 1,
     epg_id := some "tvnz-1", logo := none, created_at := now, updated_at := now },
   { id := chIds 1, name := "TVNZ 2", number := 2, enabled := 1,
     epg_id := some "tvnz-2", logo := none, created_at := now, updated_at := now },
   { id := chIds 2, name := "Three", number := 3, enabled := 1,
     epg_id := some "three", logo := none, created_at := now, updated_at := now },
   { id := chIds 3, name := "Sky Sport 1", number := 51, enabled := 1,
     epg_id := some "sky-sport-1", logo := none, created_at := now, updated_at := now },
   { id := chIds 4, name := "Sky News", number := 52, enabled := 1,
     epg_id := some "sky-news", logo := none, created_at := now, updated_at := now }]

/-- The two hard-coded sample streams of fix-epg-system.py lines 188-205.
Their `channel_id` fields are `sample_channels[0].id` (TVNZ 1) and
`sample_channels[3].id` (Sky Sport 1): list positions 0 and 3 of the
channel seed, i.e. `chIds 0` and `chIds 3`.  Stream ids are fresh uuid4
strings supplied by `stIds`. -/
def sampleStreamsSeed (chIds : Fin 5 → String) (stIds : Fin 2 → String)
    (now : Int) : List StreamRow :=
  [{ id := stIds 0, channel_id := chIds 0, name := "TVNZ 1 Stream",
     url := "https://tvnz-1.stream.example.com/playlist.m3u8",
     type := "hls", enabled := 1, created_at := now, updated_at := now },
   { id := stIds 1, channel_id := chIds 3, name := "Sky Sport 1 Stream",
     url := "https://sky-sport-1.stream.example.com/playlist.m3u8",
     type := "hls", enabled := 1, created_at := now, updated_at := now }]

/-- The per-row insert loop of the repair tool: the INSERT of each row is attempted
in order inside its own try/except, so a row whose insert raises (`fails r`)
is skipped and reported while every remaining row is still attempted. -/
def insertRows (tbl : List α) (rows : List α) (fails : α → Bool) : List α :=
  rows.foldl (fun t r => if fails r then t else t ++ [r]) tbl

/-- Observable outcome of one run of the repair tool.  `durable` is the
database state visible after the process exits: the sqlite3 connection runs
with an implicit transaction, so working changes become durable only at
`conn.commit()` (line 230); a process exit before that point rolls them
back. -/
structure RepairResult where
  exitCode : Nat
  dbOpened : Bool
  printedNotFound : Bool
  durable : DB
deriving Repr

/-- One run of fix-epg-system.py.  `dbExists` is the `os.path.exists`
pre-flight result; `fp` is the point (if any) where an exception reaches the
outer handler, which prints the error and calls `sys.exit(1)`; the three
`fails` oracles say which individual row INSERTs raise (those exceptions are
caught per row and never abort the run).  The straight-line structure mirrors
the script: DELETE epg_sources, insert 3 sources, DELETE channels, insert 5
channels, DELETE streams, insert 2 streams, commit, verification reads, file
write, close. -/
def runRepair (dbExists : Bool) (init : DB) (now : Int)
    (chIds : Fin 5 → String) (stIds : Fin 2 → String)
    (srcFail : EpgSourceRow → Bool) (chFail : ChannelRow → Bool)
    (stFail : StreamRow → Bool) (fp : Option FailPoint) : RepairResult :=
  if dbExists then
    if fp = some FailPoint.analysis then
      { exitCode := 1, dbOpened := true, printedNotFound := false, durable := init }
    else if fp = some FailPoint.delSources then
      { exitCode := 1, dbOpened := true, printedNotFound := false, durable := init }
    else
      let w1 : DB := { init with epg_sources := insertRows [] (epgSourcesSeed now) srcFail }
      if fp = some FailPoint.delChannels then
        { exitCode := 1, dbOpened := true, printedNotFound := false, durable := init }
      else
        let w2 : DB := { w1 with channels := insertRows [] (sampleChannelsSeed chIds now) chFail }
        if fp = some FailPoint.delStreams then
          { exitCode := 1, dbOpened := true, printedNotFound := false, durable := init }
        else
          let w3 : DB := { w2 with streams := insertRows [] (sampleStreamsSeed chIds stIds now) stFail }
          if fp = some FailPoint.commit then
            { exitCode := 1, dbOpened := true, printedNotFound := false, durable := init }
          else if fp = some FailPoint.verification then
            { exitCode := 1, dbOpened := true, printedNotFound := false, durable := w3 }
          else if fp = some FailPoint.fileWrite then
            { exitCode := 1, dbOpened := true, printedNotFound := false, durable := w3 }
          else if fp = some FailPoint.close then
            { exitCode := 1, dbOpened := true, printedNotFound := false, durable := w3 }
          else
            { exitCode := 0, dbOpened := true, printedNotFound := false, durable := w3 }
  else
    { exitCode := 1, dbOpened := false, printedNotFound := true, durable := init }

/-- A fully successful run of the repair tool: the database file exists, no
exception reaches the outer handler and no individual row INSERT raises. -/
def repairNoFailure (init : DB) (now : Int) (chIds : Fin 5 → String)
    (stIds : Fin 2 → String) : RepairResult :=
  runRepair true init now chIds stIds (fun _ => false) (fun _ => false)
    (fun _ => false) none

theorem insertRows_eq_filter (rows : List α) (fails : α → Bool) (tbl : List α) :
    insertRows tbl rows fails = tbl ++ rows.filter (fun r => !fails r) := by
  induction rows generalizing tbl with
  | nil => simp [insertRows]
  | cons r rs ih =>
    by_cases h : fails r = true
    · simpa [insertRows, List.foldl_cons, h] using ih tbl
    · simp only [Bool.not_eq_true] at h
      simpa [insertRows, List.foldl_cons, h] using ih (tbl ++ [r])

/-- C1: for every pre-existing database state, a successful run of the repair
tool leaves `epg_sources` with exactly the 3 fixed rows (TVNZ, Sky TV, generic
aggregator), `channels` with exactly 5 rows and `streams` with exactly 2 rows,
independent of the pre-run contents (delete-then-insert replace semantics). -/
theorem repair_success_full_replace (init : DB) (now : Int)
    (chIds : Fin 5 → String) (stIds : Fin 2 → String) :
    (repairNoFailure init now chIds stIds).exitCode = 0 ∧
    (repairNoFailure init now chIds stIds).durable.epg_sources = epgSourcesSeed now ∧
    (repairNoFailure init now chIds stIds).durable.epg_sources.length = 3 ∧
    (repairNoFailure init now chIds stIds).durable.channels.length = 5 ∧
    (repairNoFailure init now chIds stIds).durable.streams.length = 2 := by
  simp [repairNoFailure, runRepair, insertRows_eq_filter, epgSourcesSeed,
    sampleChannelsSeed, sampleStreamsSeed]

/-- C2: if an exception reaches the outer handler of the repair tool before the
single commit (the pre-repair analysis or any of the three DELETE statements;
per-row INSERT exceptions are caught locally and never reach it), the process
exits with status 1 and the durable database state is exactly the pre-run
state: no delete or insert performed so far survives. -/
theorem repair_precommit_exception_atomic (init : DB) (now : Int)
    (chIds : Fin 5 → String) (stIds : Fin 2 → String)
    (srcFail : EpgSourceRow → Bool) (chFail : ChannelRow → Bool)
    (stFail : StreamRow → Bool) (fp : FailPoint)
    (h : fp = FailPoint.analysis ∨ fp = FailPoint.delSources ∨
         fp = FailPoint.delChannels ∨ fp = FailPoint.delStreams) :
    (runRepair true init now chIds stIds srcFail chFail stFail (some fp)).exitCode = 1 ∧
    (runRepair true init now chIds stIds srcFail chFail stFail (some fp)).durable = init := by
  rcases h with h | h | h | h <;> subst h <;> simp [runRepair]

theorem repair_precommit_exception_atomic_witness :
    (runRepair true dbEmpty 0 (fun _ => "c") (fun _ => "s") (fun _ => false)
      (fun _ => false) (fun _ => false) (some FailPoint.delChannels)).exitCode = 1 ∧
    (runRepair true dbEmpty 0 (fun _ => "c") (fun _ => "s") (fun _ => false)
      (fun _ => false) (fun _ => false) (some FailPoint.delChannels)).durable = dbEmpty :=
  repair_precommit_exception_atomic dbEmpty 0 (fun _ => "c") (fun _ => "s")
    (fun _ => false) (fun _ => false) (fun _ => false) FailPoint.delChannels
    (Or.inr (Or.inr (Or.inl rfl)))

/-- C3: individual row-insert failures are isolated: for any set of failing
rows in the three seed batches, the run still completes with exit code 0 and
each table ends up with exactly the non-failing rows of its batch, every
remaining row having been attempted; in particular, when the insert of the
first EPG source (TVNZ) fails, the other two sources are still inserted. -/
theorem repair_per_row_insert_isolation (init : DB) (now : Int)
    (chIds : Fin 5 → String) (stIds : Fin 2 → String)
    (srcFail : EpgSourceRow → Bool) (chFail : ChannelRow → Bool)
    (stFail : StreamRow → Bool) :
    (runRepair true init now chIds stIds srcFail chFail stFail none).exitCode = 0 ∧
    (runRepair true init now chIds stIds srcFail chFail stFail none).durable.epg_sources =
      (epgSourcesSeed now).filter (fun s => !srcFail s) ∧
    (runRepair true init now chIds stIds srcFail chFail stFail none).durable.channels =
      (sampleChannelsSeed chIds now).filter (fun c => !chFail c) ∧
    (runRepair true init now chIds stIds srcFail chFail stFail none).durable.streams =
      (sampleStreamsSeed chIds stIds now).filter (fun s => !stFail s) ∧
    (runRepair true init now chIds stIds
        (fun s => decide (s.id = "tvnz-epg-source")) chFail stFail none).durable.epg_sources.map
        (fun s => s.name) =
      ["Sky TV EPG Source", "Generic XMLTV Source"] := by
  refine ⟨?_, ?_, ?_, ?_, ?_⟩ <;>
    simp [runRepair, insertRows_eq_filter, epgSourcesSeed, sampleChannelsSeed,
      sampleStreamsSeed]

/-- C4: in a successful run, the two seeded streams reference, in order, the
ids of the channels at seed-list positions 0 and 3, the five inserted channels
carry exactly the five freshly generated ids, and for every inserted stream its
`channel_id` equals the id of some channel inserted in the same run. -/
theorem repair_streams_reference_seeded_channels (init : DB) (now : Int)
    (chIds : Fin 5 → String) (stIds : Fin 2 → String) :
    (repairNoFailure init now chIds stIds).durable.streams.map (fun s => s.channel_id) =
      [chIds 0, chIds 3] ∧
    (repairNoFailure init now chIds stIds).durable.channels.map (fun c => c.id) =
      [chIds 0, chIds 1, chIds 2, chIds 3, chIds 4] ∧
    ∀ s ∈ (repairNoFailure init now chIds stIds).durable.streams,
      ∃ c ∈ (repairNoFailure init now chIds stIds).durable.channels,
        s.channel_id = c.id := by
  have hmap : (repairNoFailure init now chIds stIds).durable.streams.map
      (fun s => s.channel_id) = [chIds 0, chIds 3] := by
    simp [repairNoFailure, runRepair, insertRows_eq_filter, epgSourcesSeed,
      sampleChannelsSeed, sampleStreamsSeed]
  have hchan : (repairNoFailure init now chIds stIds).durable.channels.map
      (fun c => c.id) = [chIds 0, chIds 1, chIds 2, chIds 3, chIds 4] := by
    simp [repairNoFailure, runRepair, insertRows_eq_filter, epgSourcesSeed,
      sampleChannelsSeed, sampleStreamsSeed]
  refine ⟨hmap, hchan, ?_⟩
  intro s hs
  have h1 := List.mem_map_of_mem (fun s => s.channel_id) hs
  rw [hmap] at h1
  have h2 : s.channel_id ∈ [chIds 0, chIds 1, chIds 2, chIds 3, chIds 4] := by
    rcases List.mem_cons.mp h1 with h | h
    · simp [h]
    · simp [List.mem_singleton.mp h]
  rw [← hchan] at h2
  rcases List.mem_map.mp h2 with ⟨c, hc, he⟩
  exact ⟨c, hc, he.symm⟩

/-- C10: when an exception reaches the outer handler only after the commit has
executed (during the post-repair verification reads, the JSON template file
write, or the final close), the process still exits with status 1, yet the
seeded rows remain durably committed: 3 epg_sources, 5 channels, 2 streams. -/
theorem repair_postcommit_exception_durable (init : DB) (now : Int)
    (chIds : Fin 5 → String) (stIds : Fin 2 → String) (fp : FailPoint)
    (h : fp = FailPoint.verification ∨ fp = FailPoint.fileWrite ∨
         fp = FailPoint.close) :
    (runRepair true init now chIds stIds (fun _ => false) (fun _ => false)
      (fun _ => false) (some fp)).exitCode = 1 ∧
    (runRepair true init now chIds stIds (fun _ => false) (fun _ => false)
      (fun _ => false) (some fp)).durable.epg_sources = epgSourcesSeed now ∧
    (runRepair true init now chIds stIds (fun _ => false) (fun _ => false)
      (fun _ => false) (some fp)).durable.epg_sources.length = 3 ∧
    (runRepair true init now chIds stIds (fun _ => false) (fun _ => false)
      (fun _ => false) (some fp)).durable.channels.length = 5 ∧
    (runRepair true init now chIds stIds (fun _ => false) (fun _ => false)
      (fun _ => false) (some fp)).durable.streams.length = 2 := by
  rcases h with h | h | h <;> subst h <;>
    simp [runRepair, insertRows_eq_filter, epgSourcesSeed, sampleChannelsSeed,
      sampleStreamsSeed]

theorem repair_postcommit_exception_durable_witness :
    (runRepair true dbEmpty 0 (fun _ => "c") (fun _ => "s") (fun _ => false)
      (fun _ => false) (fun _ => false) (some FailPoint.verification)).exitCode = 1 ∧
    (runRepair true dbEmpty 0 (fun _ => "c") (fun _ => "s") (fun _ => false)
      (fun _ => false) (fun _ => false) (some FailPoint.verification)).durable.epg_sources =
      epgSourcesSeed 0 ∧
    (runRepair true dbEmpty 0 (fun _ => "c") (fun _ => "s") (fun _ => false)
      (fun _ => false) (fun _ => false) (some FailPoint.verification)).durable.epg_sources.length = 3 ∧
    (runRepair true dbEmpty 0 (fun _ => "c") (fun _ => "s") (fun _ => false)
      (fun _ => false) (fun _ => false) (some FailPoint.verification)).durable.channels.length = 5 ∧
    (runRepair true dbEmpty 0 (fun _ => "c") (fun _ => "s") (fun _ => false)
      (fun _ => false) (fun _ => false) (some FailPoint.verification)).durable.streams.length = 2 :=
  repair_postcommit_exception_durable dbEmpty 0 (fun _ => "c") (fun _ => "s")
    FailPoint.verification (Or.inl rfl)

/-- C5: the "channels with EPG IDs" count of the diagnosis tool (the SQL query with
its three-valued WHERE semantics) equals the number of channel rows whose
`epg_id` is non-NULL and not the empty string: every row with NULL or empty
`epg_id` is excluded, every other row included. -/
theorem diag_epg_mapped_count_correct (db : DB) :
    epgMappedCount db = epgMappedCountSpec db ∧
    ∀ c : ChannelRow,
      (sqlWhere (sqlAnd (sqlIsNotNull c.epg_id) (sqlNeText c.epg_id "")) = true ↔
        (c.epg_id ≠ none ∧ c.epg_id ≠ some "")) := by
  have hrow : ∀ c : ChannelRow,
      (sqlWhere (sqlAnd (sqlIsNotNull c.epg_id) (sqlNeText c.epg_id "")) = true ↔
        (c.epg_id ≠ none ∧ c.epg_id ≠ some "")) := by
    intro c
    rcases h : c.epg_id with _ | s
    · simp [sqlWhere, sqlAnd, sqlIsNotNull, sqlNeText]
    · by_cases hs : s = ""
      · subst hs
        simp [sqlWhere, sqlAnd, sqlIsNotNull, sqlNeText]
      · simp [sqlWhere, sqlAnd, sqlIsNotNull, sqlNeText, hs]
  refine ⟨?_, hrow⟩
  unfold epgMappedCount epgMappedCountSpec
  congr 1
  refine List.filter_congr ?_
  intro c _
  rcases h : c.epg_id with _ | s
  · simp [sqlWhere, sqlAnd, sqlIsNotNull, sqlNeText, h]
  · by_cases hs : s = ""
    · subst hs
      simp [sqlWhere, sqlAnd, sqlIsNotNull, sqlNeText, h]
    · simp [sqlWhere, sqlAnd, sqlIsNotNull, sqlNeText, h, hs]

/-- C9: with the database file missing at the fixed relative path, the
diagnosis tool prints its not-found message and exits with status 1 without
opening a connection, and the repair tool likewise exits with status 1 with
its not-found message printed, the connection unopened and the database state
untouched. -/
theorem missing_database_aborts_both (db : DB) (now : Int) (dir : String)
    (init : DB) (now2 : Int) (chIds : Fin 5 → String) (stIds : Fin 2 → String)
    (srcFail : EpgSourceRow → Bool) (chFail : ChannelRow → Bool)
    (stFail : StreamRow → Bool) (fp : Option FailPoint) :
    (diagRun false db now dir).exitCode = 1 ∧
    (diagRun false db now dir).dbOpened = false ∧
    ("❌ Database not found at: " ++ dbPath dir) ∈ (diagRun false db now dir).output ∧
    (runRepair false init now2 chIds stIds srcFail chFail stFail fp).exitCode = 1 ∧
    (runRepair false init now2 chIds stIds srcFail chFail stFail fp).dbOpened = false ∧
    (runRepair false init now2 chIds stIds srcFail chFail stFail fp).printedNotFound = true ∧
    (runRepair false init now2 chIds stIds srcFail chFail stFail fp).durable = init := by
  simp [diagRun, runRepair]

theorem groupCounts_mem (progs : List EpgProgramRow) (g : String × Nat)
    (hg : g ∈ groupCounts progs) :
    g.2 = (progs.filter (fun p => decide (p.channel_id = g.1))).length ∧ 0 < g.2 := by
  unfold groupCounts at hg
  rcases List.mem_map.mp hg with ⟨c, hc, he⟩
  subst he
  refine ⟨rfl, ?_⟩
  have hc2 : c ∈ progs.map (fun p => p.channel_id) := List.mem_dedup.mp hc
  rcases List.mem_map.mp hc2 with ⟨p, hp, hpc⟩
  have hmem : p ∈ progs.filter (fun p => decide (p.channel_id = c)) :=
    List.mem_filter.mpr ⟨hp, by simp [hpc]⟩
  exact List.length_pos_of_mem hmem

/-- C6: the recent-programs query of the diagnosis tool returns at most 10 grouped
rows, ordered by descending program count, and each returned group has a
positive count equal to the number of `epg_programs` rows with that
channel_id whose `start_time` lies strictly within the trailing 7 days of the
current time of the database, so rows at or before the 7-day cutoff never
contribute. -/
theorem diag_recent_programs_window (db : DB) (now : Int) :
    (recentPrograms db now).length ≤ 10 ∧
    List.Pairwise (fun a b : String × Nat => b.2 ≤ a.2) (recentPrograms db now) ∧
    ∀ g ∈ recentPrograms db now,
      0 < g.2 ∧
      g.2 = (db.epg_programs.filter
        (fun p => decide (p.channel_id = g.1) &&
          decide (recentCutoff now < p.start_time))).length := by
  refine ⟨?_, ?_, ?_⟩
  · unfold recentPrograms
    exact List.length_take_le _ _
  · have hp : List.Pairwise
        (fun a b : String × Nat => decide (b.2 ≤ a.2) = true)
        ((groupCounts (recentFilter db now)).mergeSort
          (fun a b => decide (b.2 ≤ a.2))) := by
      refine List.sorted_mergeSort ?_ ?_ _
      · intro a b c hab hbc
        simp only [decide_eq_true_eq] at hab hbc ⊢
        omega
      · intro a b
        simp only [Bool.or_eq_true, decide_eq_true_eq]
        exact Nat.le_total b.2 a.2
    have hp2 := (List.Pairwise.sublist (List.take_sublist 10 _) hp).imp
      (fun h => of_decide_eq_true h)
    exact hp2
  · intro g hg
    have hg1 : g ∈ (groupCounts (recentFilter db now)).mergeSort
        (fun a b => decide (b.2 ≤ a.2)) :=
      (List.take_sublist 10 _).subset hg
    have hg2 : g ∈ groupCounts (recentFilter db now) := List.mem_mergeSort.mp hg1
    rcases groupCounts_mem _ _ hg2 with ⟨hcount, hpos⟩
    refine ⟨hpos, ?_⟩
    rw [hcount]
    unfold recentFilter
    rw [List.filter_filter]

/-- A channel that is enabled but has no `epg_id`: the diagnosis listing shows
it with the failure glyph even though it is enabled, because the glyph is
computed from column index 3 of the SELECT (`epg_id`), not from `enabled`. -/
def enabledNoEpgChannel : ChannelRow :=
  { id := "ch-enabled-no-epg", name := "TVNZ 1", number := 1, enabled := 1,
    epg_id := none, logo := none, created_at := 0, updated_at := 0 }

/-- A database whose only channel is `enabledNoEpgChannel` and whose other
tables are empty. -/
def dbOneChannel : DB := { dbEmpty with channels := [enabledNoEpgChannel] }

/-- C7 counterexample: a channel with `enabled = 1` but `epg_id` NULL is
listed by the sample-channels section, yet its status glyph is the failure
glyph, so the glyph does not reflect the enabled flag. -/
theorem diag_glyph_counterexample :
    truthyInt enabledNoEpgChannel.enabled = true ∧
    enabledNoEpgChannel ∈ sampleChannels dbOneChannel ∧
    channelGlyph enabledNoEpgChannel = "❌" ∧
    channelGlyph enabledNoEpgChannel ≠ "✅" := by
  refine ⟨by decide, ?_, rfl, by decide⟩
  simp [sampleChannels, dbOneChannel, dbEmpty]

/-- C7 amended: for every channel printed by the sample-channels listing, the
status glyph is the success glyph exactly when the `epg_id` of the channel is
non-NULL and non-empty (Python truthiness of the fetched `epg_id` column), and
the failure glyph otherwise; the glyph is independent of the enabled flag. -/
theorem diag_glyph_reflects_epg_id (c : ChannelRow) :
    (channelGlyph c = "✅" ↔ (c.epg_id ≠ none ∧ c.epg_id ≠ some "")) ∧
    (channelGlyph c = "❌" ↔ ¬(c.epg_id ≠ none ∧ c.epg_id ≠ some "")) := by
  have hne : ("❌" : String) ≠ "✅" := by decide
  rcases h : c.epg_id with _ | s
  · simp [channelGlyph, truthyStrOpt, h, hne]
  · by_cases hs : s = ""
    · subst hs
      simp [channelGlyph, truthyStrOpt, h, hne]
    · simp [channelGlyph, truthyStrOpt, h, hs]

/-- C8 counterexample: a database with zero `epg_sources` rows but one channel
row still gets the "No EPG sources configured!" notice, yet its channels count
is reported as 1, not 0, so zero sources does not force all four table counts
to report 0. -/
theorem diag_zero_sources_counterexample :
    dbOneChannel.epg_sources = [] ∧
    "No EPG sources configured!" ∈ (diagRun true dbOneChannel 0 ".").output ∧
    "Channels: 1" ∈ (diagRun true dbOneChannel 0 ".").output ∧
    "Channels: 0" ∉ (diagRun true dbOneChannel 0 ".").output := by
  have hout : (diagRun true dbOneChannel 0 ".").output =
      ["✅ Found database at: ./data/database/plextv.db",
       "\n=== EPG SOURCES ===",
       "No EPG sources configured!",
       "\n=== RECORD COUNTS ===",
       "EPG Sources: 0",
       "EPG Channels: 0",
       "EPG Programs: 0",
       "Channels: 1",
       "\n=== CHANNELS WITH EPG IDS ===",
       "Channels with EPG IDs: 0",
       "\n=== RECENT EPG PROGRAMS (Last 7 days) ===",
       "No recent EPG programs found!",
       "\n=== EPG INITIALIZATION CHECK ===",
       "EPG tables found: []",
       "\n=== SAMPLE CHANNELS ===",
       "❌ Channel 1: TVNZ 1",
       "   EPG ID: NOT SET",
       "   Enabled: Yes",
       "\n✅ EPG diagnosis complete"] := by
    have hch : sampleChannels dbOneChannel = [enabledNoEpgChannel] := by
      simp [sampleChannels, dbOneChannel, dbEmpty]
    have hrp : recentPrograms dbOneChannel 0 = [] := by
      simp [recentPrograms, recentFilter, groupCounts, dbOneChannel, dbEmpty]
    simp only [diagRun, diagBody, recentProgramLines, hch, hrp, if_true]
    rfl
  rw [hout]
  refine ⟨rfl, by decide, by decide, by decide⟩

/-- C8 amended: for every database with zero `epg_sources` rows, the output
contains the "No EPG sources configured!" notice and the epg_sources count is
reported as 0; the remaining three counts report the actual row counts of
their tables (so all four report 0 exactly when all four tables are empty). -/
theorem diag_zero_sources_notice_and_counts (db : DB) (now : Int) (dir : String)
    (h1 : db.epg_sources = []) :
    "No EPG sources configured!" ∈ (diagRun true db now dir).output ∧
    "EPG Sources: 0" ∈ (diagRun true db now dir).output ∧
    recordCountLines db =
      ["EPG Sources: 0",
       "EPG Channels: " ++ toString db.epg_channels.length,
       "EPG Programs: " ++ toString db.epg_programs.length,
       "Channels: " ++ toString db.channels.length] := by
  have hrc : recordCountLines db =
      ["EPG Sources: 0",
       "EPG Channels: " ++ toString db.epg_channels.length,
       "EPG Programs: " ++ toString db.epg_programs.length,
       "Channels: " ++ toString db.channels.length] := by
    simp [recordCountLines, tablesReport, tableCount, h1]
    rfl
  refine ⟨?_, ?_, hrc⟩
  · simp [diagRun, diagBody, h1]
  · simp [diagRun, diagBody, hrc]

theorem diag_zero_sources_notice_and_counts_witness :
    "No EPG sources configured!" ∈ (diagRun true dbEmpty 0 ".").output ∧
    "EPG Sources: 0" ∈ (diagRun true dbEmpty 0 ".").output ∧
    recordCountLines dbEmpty =
      ["EPG Sources: 0",
       "EPG Channels: " ++ toString dbEmpty.epg_channels.length,
       "EPG Programs: " ++ toString dbEmpty.epg_programs.length,
       "Channels: " ++ toString dbEmpty.channels.length] :=
  diag_zero_sources_notice_and_counts dbEmpty 0 "." rfl

end PlexBridge
